import Mathlib

/-!
Verification development for the Batch PDF Merger app.

The repository ships two variants of the browser client
(`src/frontend/script.js` and the Drive-folder variant in
`src/unnamed/part_000`), a Dockerfile and run notes.  The Python backend
(Flask app, task registry, matcher, worker) is not part of the sources, so
the backend-side components needed by some properties are modelled from the
specification and are marked as such in their doc comments.

The client is embedded shallowly: the mutable `let` variables and the DOM
element properties the handlers touch become fields of an explicit state
record, each event handler becomes a pure state-transformer, and the network
is represented by the request the client would send and the response / poll
payload it receives.
-/

namespace BatchPdfMerger

/-- One entry of `result.errors` as consumed by the client:
`{file_name, message}`. -/
structure ErrorEntry where
  file_name : String
  message : String
deriving DecidableEq

/-- The `TaskResult` payload the progress endpoint embeds in a poll
response: `{status, message, errors}` (the client reads exactly these
fields). -/
structure TaskResult where
  status : String
  message : String
  errors : List ErrorEntry
deriving DecidableEq

/-- The JSON body of a progress poll response:
`{progress, status, result}` with `result` possibly `null`. -/
structure ProgressData where
  progress : Nat
  status : String
  result : Option TaskResult
deriving DecidableEq

/-- What one tick of the polling interval observes: either a decoded JSON
body, or a thrown error (a non-ok HTTP status or a fetch failure), carrying
the thrown error's `message` when it has one. -/
inductive PollOutcome where
  | ok (data : ProgressData)
  | fetchError (message : Option String)
deriving DecidableEq

/-- The JSON body of the `/api/process-pdfs` response:
`{status, task_id?, message?}`. -/
structure SubmitResponse where
  status : String
  task_id : Option String
  message : Option String
deriving DecidableEq

/-- JavaScript `x || d` applied to an optional string field: `undefined`,
`null` and the empty string are falsy, so they all fall back to `d`. -/
def jsOr (x : Option String) (d : String) : String :=
  match x with
  | none => d
  | some s => if s = "" then d else s

/-- One `<li>` line of the itemized error list
(script.js line 104 / part_000 line 149). -/
def errorItem (e : ErrorEntry) : String :=
  "<li>" ++ e.file_name ++ ": " ++ e.message ++ "</li>"

/-- The segments concatenated into `resultsDiv.innerHTML` on a successful
completed result (script.js lines 97-110 / part_000 lines 142-155): the
result message, then - only when there are errors - either the itemized
list (at most 10 errors) or the single summary warning (more than 10). -/
def successMessageParts (res : TaskResult) : List String :=
  ["<p>" ++ res.message ++ "</p>"]
  ++ (if res.errors.length > 0 then
        if res.errors.length ≤ 10 then
          ["<p>Algunos PDFs no pudieron ser procesados:</p><ul>"]
          ++ res.errors.map errorItem
          ++ ["</ul>"]
        else
          ["<p>Advertencia: " ++ toString res.errors.length
            ++ " PDFs no pudieron ser procesados y fueron guardados en la carpeta \x27PDFs con Error\x27.</p>"]
      else [])

/-- The full `innerHTML` string built by the success branch. -/
def successMessage (res : TaskResult) : String :=
  String.join (successMessageParts res)

/-- The multipart form the script.js client posts to `/api/process-pdfs`:
the Excel file when one was chosen, otherwise the Sheets file id, plus every
entry of `pdfFilesData` (script.js lines 253-262). -/
structure FormPayload where
  excelFile : Option String
  sheetsFileId : Option String
  pdfFiles : List String
deriving DecidableEq

/-- Modelled from the spec: the Submission Endpoint (spec section 4.2) lives in
the backend `app.py`, which is not under `src/`.  Per the spec it validates
that an index source and at least one document are present; on success it
allocates a task id and returns `{status: "success", task_id}`, on
validation failure it returns `{status: "error", message}` and creates no
task. -/
def submissionEndpoint (req : FormPayload) (freshId : String) : SubmitResponse :=
  if (req.excelFile.isSome || req.sheetsFileId.isSome) && !req.pdfFiles.isEmpty then
    { status := "success", task_id := some freshId, message := none }
  else
    { status := "error", task_id := none, message := some "ValidationError" }

namespace Frontend

/-- State of the `src/frontend/script.js` client: the mutable `let`
variables declared at lines 21-24 together with the DOM element properties
the handlers read or write (`hidden` class membership, `innerHTML`,
`textContent`, progress bar width).  Files and file handles are represented
by their names. -/
structure ClientState where
  selectedExcelFile : Option String
  selectedSheetsFileId : Option String
  selectedPdfFiles : List String
  pdfFilesData : List String
  step1Hidden : Bool
  step2Hidden : Bool
  step3Hidden : Bool
  progressSectionHidden : Bool
  resultsSectionHidden : Bool
  selectedExcelFileText : String
  selectedPdfFolderText : String
  selectedExcelFileHidden : Bool
  selectedPdfFolderHidden : Bool
  progressBarWidth : Nat
  resultsHTML : String
  downloadExcelHidden : Bool
  viewDriveHidden : Bool
  processAgainHidden : Bool
deriving DecidableEq

/-- Result of one tick of the polling interval: the updated client state,
and whether `clearInterval` was called (so no further poll is made). -/
structure PollTick where
  state : ClientState
  stopped : Bool
deriving DecidableEq

/-- The `catch` branch of the poll callback (script.js lines 124-135):
stop the interval, hide the progress section, show the results section with
a critical error text, hide both download buttons and show the
process-again button. -/
def pollCatch (s : ClientState) (msg : Option String) : ClientState :=
  { s with
      progressSectionHidden := true
      resultsSectionHidden := false
      resultsHTML := "<p>Error crítico durante el procesamiento: "
        ++ jsOr msg "Error desconocido" ++ "</p>"
      downloadExcelHidden := true
      viewDriveHidden := true
      processAgainHidden := false }

/-- Message of the TypeError thrown by `data.result.status` when
`data.result` is `null` (the exact browser text varies; no claim depends on
it). -/
def nullAccessMessage : String := "Cannot read properties of null"

/-- One tick of `startProgressPolling` (script.js lines 79-137).  A thrown
error (non-ok HTTP status, fetch failure, or the TypeError from reading
`data.result.status` off a `null` result) lands in the `catch` branch.  On
a decoded body the progress bar is updated; only a `"completed"` status
enters the terminal branch, which stops the interval and renders either the
success message (with itemized or summarized errors) or the critical error
text. -/
def pollStep (s : ClientState) (o : PollOutcome) : PollTick :=
  match o with
  | .fetchError m => { state := pollCatch s m, stopped := true }
  | .ok data =>
    let s1 := { s with progressBarWidth := data.progress }
    if data.status = "completed" then
      match data.result with
      | none => { state := pollCatch s1 (some nullAccessMessage), stopped := true }
      | some res =>
        let s2 := { s1 with
          progressSectionHidden := true
          resultsSectionHidden := false }
        if res.status = "success" then
          { state := { s2 with
              resultsHTML := successMessage res
              downloadExcelHidden := false
              viewDriveHidden := false
              processAgainHidden := false },
            stopped := true }
        else
          { state := { s2 with
              resultsHTML := "<p>Error crítico durante el procesamiento: "
                ++ res.message ++ "</p>"
              downloadExcelHidden := true
              viewDriveHidden := true
              processAgainHidden := false },
            stopped := true }
    else
      { state := s1, stopped := false }

/-- The form built at script.js lines 253-262: `excelFile` when a local
Excel file was chosen, otherwise `sheetsFileId`, plus all of
`pdfFilesData`. -/
def buildFormPayload (s : ClientState) : FormPayload :=
  match s.selectedExcelFile with
  | some f => { excelFile := some f, sheetsFileId := none, pdfFiles := s.pdfFilesData }
  | none =>
    { excelFile := none
      sheetsFileId := s.selectedSheetsFileId
      pdfFiles := s.pdfFilesData }

/-- The guarded part of the start-processing click handler (script.js lines
240-262): when no index source is selected or `pdfFilesData` is empty, the
handler alerts and returns - the returned payload is `none` and the state
is untouched, so no request is ever sent.  Otherwise steps 1-3 are hidden,
the progress section is shown, the results section is hidden, and the form
payload is sent. -/
def startProcessing (s : ClientState) : ClientState × Option FormPayload :=
  if (s.selectedExcelFile.isNone && s.selectedSheetsFileId.isNone)
      || s.pdfFilesData.length == 0 then
    (s, none)
  else
    ({ s with
        step1Hidden := true
        step2Hidden := true
        step3Hidden := true
        progressSectionHidden := false
        resultsSectionHidden := true },
      some (buildFormPayload s))

/-- What the client does with the decoded `/api/process-pdfs` response
body. -/
inductive SubmitAction where
  | startPolling (taskId : Option String)
  | showError
deriving DecidableEq

/-- The response handling of the start-processing click handler (script.js
lines 270-282): on `status === "success"` it calls
`startProgressPolling(result.task_id)` at once and clears/hides the results
area; otherwise it shows the results section with the response message (or
a default text) and polling is never started. -/
def handleSubmitResponse (s : ClientState) (r : SubmitResponse) :
    ClientState × SubmitAction :=
  if r.status = "success" then
    ({ s with resultsSectionHidden := true, resultsHTML := "" },
      .startPolling r.task_id)
  else
    ({ s with
        progressSectionHidden := true
        resultsSectionHidden := false
        resultsHTML := "<p>Error durante el procesamiento: "
          ++ jsOr r.message "Error desconocido." ++ "</p>" },
      .showError)

/-- The process-again click handler (script.js lines 292-303): nulls the
Excel/Sheets selection, empties `pdfFilesData`, clears and hides the two
selection indicator divs, hides the results section and shows step 1.  It
touches nothing else; in particular `selectedPdfFiles` (initialized to `[]`
at script.js line 23) keeps whatever value the PDF picker left in it. -/
def processAgainClick (s : ClientState) : ClientState :=
  { s with
      selectedExcelFile := none
      selectedSheetsFileId := none
      pdfFilesData := []
      selectedExcelFileText := ""
      selectedPdfFolderText := ""
      selectedExcelFileHidden := true
      selectedPdfFolderHidden := true
      resultsSectionHidden := true
      step1Hidden := false }

end Frontend

namespace Drive

/-- State of the Drive-folder client variant (`src/unnamed/part_000`): the
mutable `let` variables declared at lines 22-26 together with the DOM
element properties its handlers touch, including the progress message
element this variant adds. -/
structure ClientState where
  selectedExcelFile : Option String
  selectedSheetsFileId : Option String
  selectedPdfFiles : List String
  pdfFilesData : List String
  selectedFolderId : Option String
  step1Hidden : Bool
  step2Hidden : Bool
  step3Hidden : Bool
  progressSectionHidden : Bool
  resultsSectionHidden : Bool
  selectedExcelFileText : String
  selectedPdfFolderText : String
  selectedExcelFileHidden : Bool
  selectedPdfFolderHidden : Bool
  progressBarWidth : Nat
  progressMessageText : String
  resultsHTML : String
  processAgainHidden : Bool
deriving DecidableEq

/-- Result of one tick of this variant's polling interval. -/
structure PollTick where
  state : ClientState
  stopped : Bool
deriving DecidableEq

/-- The progress message shown for a polled progress value (part_000 lines
124-134): strict upper bounds 10 / 20 / 60 / 100 select the stage text,
everything else (100 and above) shows the completion text. -/
def progressMessageFor (progress : Nat) : String :=
  if progress < 10 then "Inicializando..."
  else if progress < 20 then "Descargando PDFs..."
  else if progress < 60 then "Procesando PDFs..."
  else if progress < 100 then "Unificando PDFs..."
  else "Proceso completado."

/-- The `catch` branch of this variant's poll callback (part_000 lines
166-175): stop the interval, hide the progress section, show the results
section with a critical error text and the process-again button. -/
def pollCatch (s : ClientState) (msg : Option String) : ClientState :=
  { s with
      progressSectionHidden := true
      resultsSectionHidden := false
      resultsHTML := "<p>Error crítico durante el procesamiento: "
        ++ jsOr msg "Error desconocido" ++ "</p>"
      processAgainHidden := false }

/-- One tick of this variant's `startProgressPolling` (part_000 lines
111-177).  Besides the progress bar it updates the staged progress message;
only a `"completed"` status stops the interval, and the success branch is
guarded by `data.result && data.result.status === 'success'`, with a `null`
result falling into the critical-error branch via
`(data.result && data.result.message) || 'Error desconocido'`. -/
def pollStep (s : ClientState) (o : PollOutcome) : PollTick :=
  match o with
  | .fetchError m => { state := pollCatch s m, stopped := true }
  | .ok data =>
    let s1 := { s with
      progressBarWidth := data.progress
      progressMessageText := progressMessageFor data.progress }
    if data.status = "completed" then
      let s2 := { s1 with
        progressSectionHidden := true
        resultsSectionHidden := false }
      match data.result with
      | some res =>
        if res.status = "success" then
          { state := { s2 with
              resultsHTML := successMessage res
              processAgainHidden := false },
            stopped := true }
        else
          { state := { s2 with
              resultsHTML := "<p>Error crítico durante el procesamiento: "
                ++ jsOr (some res.message) "Error desconocido" ++ "</p>"
              processAgainHidden := false },
            stopped := true }
      | none =>
        { state := { s2 with
            resultsHTML := "<p>Error crítico durante el procesamiento: "
              ++ "Error desconocido" ++ "</p>"
            processAgainHidden := false },
          stopped := true }
    else
      { state := s1, stopped := false }

/-- The guarded part of this variant's start-processing click handler
(part_000 lines 207-222): when no Excel file or no Drive folder is
selected, the handler alerts and returns - no request is sent and the state
is untouched.  Otherwise steps 1-3 are hidden, the progress section is
shown, the results section is hidden, and `excelFile` plus `folderId` are
posted. -/
def startProcessing (s : ClientState) :
    ClientState × Option (String × String) :=
  match s.selectedExcelFile, s.selectedFolderId with
  | some excel, some folder =>
    ({ s with
        step1Hidden := true
        step2Hidden := true
        step3Hidden := true
        progressSectionHidden := false
        resultsSectionHidden := true },
      some (excel, folder))
  | _, _ => (s, none)

/-- What this variant's client does with the decoded submit response. -/
inductive SubmitAction where
  | startPolling (taskId : Option String)
  | showError
deriving DecidableEq

/-- The response handling of this variant's start-processing click handler
(part_000 lines 230-242), identical in logic to the script.js variant. -/
def handleSubmitResponse (s : ClientState) (r : SubmitResponse) :
    ClientState × SubmitAction :=
  if r.status = "success" then
    ({ s with resultsSectionHidden := true, resultsHTML := "" },
      .startPolling r.task_id)
  else
    ({ s with
        progressSectionHidden := true
        resultsSectionHidden := false
        resultsHTML := "<p>Error durante el procesamiento: "
          ++ jsOr r.message "Error desconocido." ++ "</p>" },
      .showError)

/-- The process-again click handler of this variant (part_000 lines
252-269): additionally nulls `selectedFolderId`, resets the progress bar to
0% and the progress message to empty, and hides the process-again button.
As in the other variant, `selectedPdfFiles` is left untouched. -/
def processAgainClick (s : ClientState) : ClientState :=
  { s with
      selectedExcelFile := none
      selectedSheetsFileId := none
      pdfFilesData := []
      selectedFolderId := none
      selectedExcelFileText := ""
      selectedPdfFolderText := ""
      selectedExcelFileHidden := true
      selectedPdfFolderHidden := true
      resultsSectionHidden := true
      step1Hidden := false
      progressBarWidth := 0
      progressMessageText := ""
      processAgainHidden := true }

end Drive

namespace Backend

/-- Modelled from the spec: a submitted Document (spec section 3) - the
backend that reads documents is not under `src/`.  Only the fields the
Matcher consumes are kept; `raw_content` is subsumed by `source_name`
standing for the immutable submitted file. -/
structure Document where
  source_name : String
  extracted_identifier : Option String
deriving DecidableEq

/-- Modelled from the spec: an IndexRow (spec section 3) built by the Index
Builder, which is not under `src/`. -/
structure IndexRow where
  identifier : String
  metadata : String
deriving DecidableEq

/-- Modelled from the spec: the two Unmatched reasons the Matcher must
distinguish (spec section 4.4). -/
inductive UnmatchedReason where
  | noIdentifierExtracted
  | identifierNotInIndex
deriving DecidableEq

/-- Modelled from the spec: the tagged MatchOutcome variant (spec
section 3). -/
inductive MatchOutcome where
  | matched (document : Document) (row : IndexRow)
  | unmatched (document : Document) (reason : UnmatchedReason)
deriving DecidableEq

/-- The document an outcome is about, in either variant. -/
def MatchOutcome.document : MatchOutcome → Document
  | .matched d _ => d
  | .unmatched d _ => d

/-- Modelled from the spec: index lookup by identifier (first matching row;
the spec leaves first-wins vs last-wins open but demands one deterministic
rule). -/
def lookupRow (index : List IndexRow) (id : String) : Option IndexRow :=
  index.find? (fun r => r.identifier == id)

/-- Modelled from the spec: the Matcher's per-document step (spec
section 4.4, backend not under `src/`): an absent extracted identifier
yields `Unmatched` with the no-identifier reason, an identifier missing
from the index yields `Unmatched` with the not-in-index reason, otherwise
the document is matched to the found row. -/
def matchDocument (index : List IndexRow) (doc : Document) : MatchOutcome :=
  match doc.extracted_identifier with
  | none => .unmatched doc .noIdentifierExtracted
  | some id =>
    match lookupRow index id with
    | some row => .matched doc row
    | none => .unmatched doc .identifierNotInIndex

/-- Modelled from the spec: the Matcher over the full document collection -
one MatchOutcome per submitted document, in submission order. -/
def matcher (index : List IndexRow) (docs : List Document) : List MatchOutcome :=
  docs.map (matchDocument index)

/-- The matched-and-produced documents of a batch, in submission order. -/
def matchedDocs (index : List IndexRow) (docs : List Document) : List Document :=
  (matcher index docs).filterMap (fun o =>
    match o with
    | .matched d _ => some d
    | .unmatched _ _ => none)

/-- The error bucket of a batch: the documents of all Unmatched outcomes,
in submission order. -/
def errorBucket (index : List IndexRow) (docs : List Document) : List Document :=
  (matcher index docs).filterMap (fun o =>
    match o with
    | .matched _ _ => none
    | .unmatched d _ => some d)

/-- Modelled from the spec: the four task statuses (spec section 3). -/
inductive TaskStatus where
  | queued
  | running
  | completed
  | failed
deriving DecidableEq

/-- Numeric rank of a status along the forward chain
queued → running → {completed, failed}. -/
def TaskStatus.rank : TaskStatus → Nat
  | .queued => 0
  | .running => 1
  | .completed => 2
  | .failed => 2

/-- Whether a status is terminal. -/
def TaskStatus.isTerminal : TaskStatus → Bool
  | .completed => true
  | .failed => true
  | _ => false

/-- Modelled from the spec: the transitions the registry accepts (spec
sections 3 and 4.7): a status may stay put or move one step along
queued → running → {completed, failed}; a terminal task is immutable, so no
transition out of (or within) a terminal status is accepted. -/
def forwardStep : TaskStatus → TaskStatus → Bool
  | .queued, .queued => true
  | .queued, .running => true
  | .running, .running => true
  | .running, .completed => true
  | .running, .failed => true
  | _, _ => false

/-- Modelled from the spec: a registry Task entry (spec section 3, backend
not under `src/`). -/
structure Task where
  status : TaskStatus
  progress : Nat
  result : Option TaskResult
deriving DecidableEq

/-- Modelled from the spec: a progress/status/result patch passed to
`Task Registry.update` (spec section 4.1). -/
structure TaskPatch where
  status : Option TaskStatus
  progress : Option Nat
  result : Option TaskResult
deriving DecidableEq

/-- Modelled from the spec: the registry-contract errors surfaced to the
caller (spec section 7). -/
inductive RegistryError where
  | notFound
  | duplicateId
  | invalidTransition
deriving DecidableEq

/-- Modelled from the spec: `Task Registry.update` (spec section 4.1,
backend not under `src/`): the patch is rejected with `InvalidTransition`
when it would move the status backward (or mutate a terminal task) or set
progress below the current value; otherwise the patched task is stored
atomically. -/
def Task.update (t : Task) (p : TaskPatch) : Except RegistryError Task :=
  let newStatus := p.status.getD t.status
  let newProgress := p.progress.getD t.progress
  if forwardStep t.status newStatus = false then
    .error .invalidTransition
  else if newProgress < t.progress then
    .error .invalidTransition
  else
    .ok { status := newStatus, progress := newProgress,
          result := p.result.orElse (fun _ => t.result) }

/-- The registry state after one update attempt: a rejected patch leaves
the stored task unchanged (the error is surfaced to the worker, never
applied). -/
def applyPatch (t : Task) (p : TaskPatch) : Task :=
  match t.update p with
  | .ok t2 => t2
  | .error _ => t

/-- The registry state after a whole sequence of update attempts by the
owning worker; polling observes precisely the states along this fold. -/
def applyPatches (t : Task) (ps : List TaskPatch) : Task :=
  ps.foldl applyPatch t

end Backend

/-- Stopping condition of the observed polling loops, for comparison with
the claimed one: both client variants call `clearInterval` exactly when the
poll threw (fetch failure / non-ok status) or the decoded status string is
`"completed"` - a `"failed"` status does not stop the loop. -/
def stopsPolling (o : PollOutcome) : Bool :=
  match o with
  | .fetchError _ => true
  | .ok data => data.status == "completed"

/-- Concrete script.js client state used by witnesses and counterexamples:
the PDF picker has run (its handles are retained in `selectedPdfFiles`) but
`pdfFilesData` is empty and no index source is selected. -/
def sampleClient : Frontend.ClientState :=
  { selectedExcelFile := none
    selectedSheetsFileId := none
    selectedPdfFiles := ["a.pdf"]
    pdfFilesData := []
    step1Hidden := false
    step2Hidden := true
    step3Hidden := true
    progressSectionHidden := true
    resultsSectionHidden := true
    selectedExcelFileText := ""
    selectedPdfFolderText := ""
    selectedExcelFileHidden := true
    selectedPdfFolderHidden := true
    progressBarWidth := 0
    resultsHTML := ""
    downloadExcelHidden := true
    viewDriveHidden := true
    processAgainHidden := true }

/-- Concrete Drive-variant client state used by witnesses: nothing selected
yet. -/
def sampleDrive : Drive.ClientState :=
  { selectedExcelFile := none
    selectedSheetsFileId := none
    selectedPdfFiles := []
    pdfFilesData := []
    selectedFolderId := none
    step1Hidden := false
    step2Hidden := true
    step3Hidden := true
    progressSectionHidden := true
    resultsSectionHidden := true
    selectedExcelFileText := ""
    selectedPdfFolderText := ""
    selectedExcelFileHidden := true
    selectedPdfFolderHidden := true
    progressBarWidth := 0
    progressMessageText := ""
    resultsHTML := ""
    processAgainHidden := true }

/-- Concrete successful task result with two error entries, used by
witnesses. -/
def sampleRes : TaskResult :=
  { status := "success"
    message := "done"
    errors := [{ file_name := "a.pdf", message := "bad" },
               { file_name := "b.pdf", message := "worse" }] }

/-- Claim C1: for every submission the client sends to the processing
endpoint, a response with status "success" carries a task id, and the
client's response handler immediately starts progress polling with exactly
that task id (the action is produced at response time, before the batch
finishes). -/
theorem success_response_carries_task_id_and_client_polls_it
    (req : FormPayload) (fid : String) (s : Frontend.ClientState)
    (h : (submissionEndpoint req fid).status = "success") :
    (submissionEndpoint req fid).task_id = some fid
    ∧ (Frontend.handleSubmitResponse s (submissionEndpoint req fid)).2
        = Frontend.SubmitAction.startPolling (some fid) := by
  by_cases hv : ((req.excelFile.isSome || req.sheetsFileId.isSome)
      && !req.pdfFiles.isEmpty) = true
  · constructor
    · simp [submissionEndpoint, hv]
    · simp [submissionEndpoint, hv, Frontend.handleSubmitResponse]
  · exfalso
    simp [submissionEndpoint, hv] at h

/-- Witness for C1 at a concrete request with one index source and one
document. -/
theorem success_response_carries_task_id_witness :
    (submissionEndpoint
        { excelFile := some "index.xlsx", sheetsFileId := none,
          pdfFiles := ["a.pdf"] } "task-1").task_id = some "task-1"
    ∧ (Frontend.handleSubmitResponse sampleClient
        (submissionEndpoint
          { excelFile := some "index.xlsx", sheetsFileId := none,
            pdfFiles := ["a.pdf"] } "task-1")).2
        = Frontend.SubmitAction.startPolling (some "task-1") :=
  success_response_carries_task_id_and_client_polls_it _ _ sampleClient (by decide)

/-- Claim C3: a submission attempt with zero documents (script.js variant:
empty `pdfFilesData`; Drive variant: no folder selected) or with no index
source selected is rejected by the click handler before any request is
sent - the payload is `none` and the state is unchanged, so no task is
created and no task id is ever issued. -/
theorem empty_submission_rejected_without_request
    (s : Frontend.ClientState) (d : Drive.ClientState) :
    ((s.pdfFilesData = []
        ∨ (s.selectedExcelFile = none ∧ s.selectedSheetsFileId = none)) →
      Frontend.startProcessing s = (s, none))
    ∧ ((d.selectedExcelFile = none ∨ d.selectedFolderId = none) →
      Drive.startProcessing d = (d, none)) := by
  constructor
  · intro h
    rcases h with h | ⟨h1, h2⟩
    · simp [Frontend.startProcessing, h]
    · simp [Frontend.startProcessing, h1, h2]
  · intro h
    rcases h with h | h
    · rcases hf : d.selectedFolderId with _ | f <;>
        simp [Drive.startProcessing, h, hf]
    · rcases he : d.selectedExcelFile with _ | e <;>
        simp [Drive.startProcessing, h, he]

/-- Witness for C3 at concrete states with no documents (script.js) and no
Excel file (Drive). -/
theorem empty_submission_rejected_witness :
    Frontend.startProcessing sampleClient = (sampleClient, none)
    ∧ Drive.startProcessing sampleDrive = (sampleDrive, none) := by
  have h := empty_submission_rejected_without_request sampleClient sampleDrive
  exact ⟨h.1 (Or.inl rfl), h.2 (Or.inl rfl)⟩

/-- Claim C5: a submit response whose status is not "success" never starts
progress polling - the handler's action is `showError`, the progress
section is hidden and the results section shows the response message (or
the default unknown-error text), in both client variants. -/
theorem error_response_never_polls
    (s : Frontend.ClientState) (d : Drive.ClientState) (r : SubmitResponse)
    (h : r.status ≠ "success") :
    Frontend.handleSubmitResponse s r
      = ({ s with
            progressSectionHidden := true
            resultsSectionHidden := false
            resultsHTML := "<p>Error durante el procesamiento: "
              ++ jsOr r.message "Error desconocido." ++ "</p>" },
          Frontend.SubmitAction.showError)
    ∧ Drive.handleSubmitResponse d r
      = ({ d with
            progressSectionHidden := true
            resultsSectionHidden := false
            resultsHTML := "<p>Error durante el procesamiento: "
              ++ jsOr r.message "Error desconocido." ++ "</p>" },
          Drive.SubmitAction.showError) := by
  unfold Frontend.handleSubmitResponse Drive.handleSubmitResponse
  rw [if_neg h, if_neg h]
  exact ⟨rfl, rfl⟩

/-- Witness for C5 at a concrete error response with no message, showing
the default text. -/
theorem error_response_never_polls_witness :
    (Frontend.handleSubmitResponse sampleClient
        { status := "error", task_id := none, message := none }).2
      = Frontend.SubmitAction.showError
    ∧ (Drive.handleSubmitResponse sampleDrive
        { status := "error", task_id := none, message := none }).1.resultsHTML
      = "<p>Error durante el procesamiento: Error desconocido.</p>" := by
  have h := error_response_never_polls sampleClient sampleDrive
    { status := "error", task_id := none, message := none } (by decide)
  constructor
  · rw [h.1]
  · rw [h.2]
    rfl

/-- Counterexample to claim C2 as stated: "failed" is a terminal status,
yet at this concrete poll response with status "failed" the script.js poll
tick does not call `clearInterval` - the client keeps polling a task that
has reached a terminal state. -/
theorem polling_continues_on_failed_status_cex :
    (Frontend.pollStep sampleClient (PollOutcome.ok
        { progress := 50
          status := "failed"
          result := some { status := "critical_failure"
                           message := "boom"
                           errors := [] } })).stopped = false := by
  decide

/-- Claim C2 amended: both polling loops stop exactly when the poll threw
(fetch failure or non-ok HTTP status) or the polled status is "completed";
whenever they stop through the poll callback they render a result (results
section and process-again button visible).  A polled status of "failed"
does not stop the loop. -/
theorem poll_stops_exactly_on_completed_or_fetch_error
    (s : Frontend.ClientState) (d : Drive.ClientState) (o : PollOutcome) :
    ((Frontend.pollStep s o).stopped = stopsPolling o)
    ∧ ((Drive.pollStep d o).stopped = stopsPolling o)
    ∧ (stopsPolling o = true →
        (Frontend.pollStep s o).state.resultsSectionHidden = false
        ∧ (Frontend.pollStep s o).state.processAgainHidden = false
        ∧ (Drive.pollStep d o).state.resultsSectionHidden = false
        ∧ (Drive.pollStep d o).state.processAgainHidden = false) := by
  cases o with
  | fetchError m =>
    refine ⟨rfl, rfl, fun _ => ?_⟩
    exact ⟨rfl, rfl, rfl, rfl⟩
  | ok data =>
    by_cases hc : data.status = "completed"
    · have hs : stopsPolling (PollOutcome.ok data) = true := by
        simp [stopsPolling, hc]
      refine ⟨?_, ?_, fun _ => ?_⟩
      · rcases hr : data.result with _ | res
        · simp [Frontend.pollStep, hc, hr, hs]
        · by_cases hst : res.status = "success" <;>
            simp [Frontend.pollStep, hc, hr, hst, hs]
      · rcases hr : data.result with _ | res
        · simp [Drive.pollStep, hc, hr, hs]
        · by_cases hst : res.status = "success" <;>
            simp [Drive.pollStep, hc, hr, hst, hs]
      · constructor
        · rcases hr : data.result with _ | res
          · simp [Frontend.pollStep, Frontend.pollCatch, hc, hr]
          · by_cases hst : res.status = "success" <;>
              simp [Frontend.pollStep, hc, hr, hst]
        · refine ⟨?_, ?_, ?_⟩
          · rcases hr : data.result with _ | res
            · simp [Frontend.pollStep, Frontend.pollCatch, hc, hr]
            · by_cases hst : res.status = "success" <;>
                simp [Frontend.pollStep, hc, hr, hst]
          · rcases hr : data.result with _ | res
            · simp [Drive.pollStep, hc, hr]
            · by_cases hst : res.status = "success" <;>
                simp [Drive.pollStep, hc, hr, hst]
          · rcases hr : data.result with _ | res
            · simp [Drive.pollStep, hc, hr]
            · by_cases hst : res.status = "success" <;>
                simp [Drive.pollStep, hc, hr, hst]
    · have hs : stopsPolling (PollOutcome.ok data) = false := by
        simp [stopsPolling, hc]
      refine ⟨?_, ?_, fun habs => ?_⟩
      · simp [Frontend.pollStep, hc, hs]
      · simp [Drive.pollStep, hc, hs]
      · rw [hs] at habs
        exact absurd habs (by decide)

/-- Witness for C2's amended theorem at a concrete fetch error, where the
loop stops and renders a result. -/
theorem poll_stops_witness :
    (Frontend.pollStep sampleClient (PollOutcome.fetchError none)).stopped
      = stopsPolling (PollOutcome.fetchError none)
    ∧ (Frontend.pollStep sampleClient
        (PollOutcome.fetchError none)).state.resultsSectionHidden = false := by
  have h := poll_stops_exactly_on_completed_or_fetch_error sampleClient
    sampleDrive (PollOutcome.fetchError none)
  exact ⟨h.1, (h.2.2 rfl).1⟩

/-- Claim C4: the stage message the Drive-variant client shows is a
function of the polled progress value alone and follows the checkpoint
bands - below 10 initialize, 10 to below 20 download, 20 to below 60
match-and-process, 60 through 95 merge/publish - and for progress values up
to 100 the completion text is shown exactly at 100. -/
theorem progress_stage_bands (p : Nat) (hp : p ≤ 100) :
    (p < 10 → Drive.progressMessageFor p = "Inicializando...")
    ∧ (10 ≤ p → p < 20 → Drive.progressMessageFor p = "Descargando PDFs...")
    ∧ (20 ≤ p → p < 60 → Drive.progressMessageFor p = "Procesando PDFs...")
    ∧ (60 ≤ p → p ≤ 95 → Drive.progressMessageFor p = "Unificando PDFs...")
    ∧ (Drive.progressMessageFor p = "Proceso completado." ↔ p = 100) := by
  unfold Drive.progressMessageFor
  refine ⟨?_, ?_, ?_, ?_, ?_⟩
  · intro h
    rw [if_pos h]
  · intro h1 h2
    rw [if_neg (by omega), if_pos h2]
  · intro h1 h2
    rw [if_neg (by omega), if_neg (by omega), if_pos h2]
  · intro h1 h2
    rw [if_neg (by omega), if_neg (by omega), if_neg (by omega),
      if_pos (by omega)]
  · constructor
    · intro h
      by_cases h1 : p < 10
      · rw [if_pos h1] at h
        exact absurd h (by decide)
      · by_cases h2 : p < 20
        · rw [if_neg h1, if_pos h2] at h
          exact absurd h (by decide)
        · by_cases h3 : p < 60
          · rw [if_neg h1, if_neg h2, if_pos h3] at h
            exact absurd h (by decide)
          · by_cases h4 : p < 100
            · rw [if_neg h1, if_neg h2, if_neg h3, if_pos h4] at h
              exact absurd h (by decide)
            · omega
    · intro h
      subst h
      rfl

/-- Witness for C4 at the terminal progress value 100. -/
theorem progress_stage_bands_witness :
    Drive.progressMessageFor 100 = "Proceso completado." ∧ (100 : Nat) = 100 := by
  have h := progress_stage_bands 100 (by decide)
  exact ⟨h.2.2.2.2.mpr rfl, rfl⟩

/-- Claim C8: on a poll response with status "completed" whose result
status is not "success", the script.js poll tick stops the interval,
renders the result message as a critical processing error, hides the
download-Excel and view-Drive buttons and shows the process-again button;
and on a "queued" or "running" status none of that terminal handling runs -
only the progress bar is updated and polling continues. -/
theorem completed_critical_result_terminal_ui
    (s : Frontend.ClientState) (pr : Nat) (res : TaskResult)
    (h : res.status ≠ "success") :
    Frontend.pollStep s (PollOutcome.ok
        { progress := pr, status := "completed", result := some res })
      = { state := { s with
            progressBarWidth := pr
            progressSectionHidden := true
            resultsSectionHidden := false
            resultsHTML := "<p>Error crítico durante el procesamiento: "
              ++ res.message ++ "</p>"
            downloadExcelHidden := true
            viewDriveHidden := true
            processAgainHidden := false },
          stopped := true }
    ∧ ∀ data : ProgressData,
        (data.status = "queued" ∨ data.status = "running") →
        Frontend.pollStep s (PollOutcome.ok data)
          = { state := { s with progressBarWidth := data.progress },
              stopped := false } := by
  constructor
  · simp [Frontend.pollStep, h]
  · intro data hqr
    have hne : data.status ≠ "completed" := by
      rcases hqr with h1 | h1 <;> rw [h1] <;> decide
    simp [Frontend.pollStep, hne]

/-- Witness for C8 at a concrete critical-failure result and a concrete
running poll. -/
theorem completed_critical_result_terminal_ui_witness :
    (Frontend.pollStep sampleClient (PollOutcome.ok
        { progress := 80
          status := "completed"
          result := some { status := "critical_failure"
                           message := "boom"
                           errors := [] } })).state.downloadExcelHidden = true
    ∧ (Frontend.pollStep sampleClient (PollOutcome.ok
        { progress := 30, status := "running", result := none })).stopped
      = false := by
  have h := completed_critical_result_terminal_ui sampleClient 80
    { status := "critical_failure", message := "boom", errors := [] }
    (by decide)
  constructor
  · rw [h.1]
  · rw [h.2 { progress := 30, status := "running", result := none }
      (Or.inr rfl)]

/-- Claim C9: a completed success result with a non-empty error list is
itemized exactly when there are at most 10 errors - the rendered segments
are the result message, the list header, one item per error entry (with its
file name and message) and the list footer; with more than 10 errors the
rendered segments are the result message and a single summary line carrying
the error count, so no individual entry is shown. -/
theorem error_itemization_threshold (res : TaskResult)
    (hne : res.errors ≠ []) :
    (res.errors.length ≤ 10 →
      successMessageParts res
        = ["<p>" ++ res.message ++ "</p>",
           "<p>Algunos PDFs no pudieron ser procesados:</p><ul>"]
          ++ res.errors.map errorItem ++ ["</ul>"]
      ∧ ∀ e ∈ res.errors, errorItem e ∈ successMessageParts res)
    ∧ (10 < res.errors.length →
      successMessageParts res
        = ["<p>" ++ res.message ++ "</p>",
           "<p>Advertencia: " ++ toString res.errors.length
             ++ " PDFs no pudieron ser procesados y fueron guardados en la carpeta \x27PDFs con Error\x27.</p>"]) := by
  have hlen : res.errors.length > 0 := List.length_pos.mpr hne
  constructor
  · intro h10
    have he : successMessageParts res
        = ["<p>" ++ res.message ++ "</p>",
           "<p>Algunos PDFs no pudieron ser procesados:</p><ul>"]
          ++ res.errors.map errorItem ++ ["</ul>"] := by
      unfold successMessageParts
      rw [if_pos hlen, if_pos h10]
      simp
    refine ⟨he, fun e hein => ?_⟩
    rw [he]
    exact List.mem_append_left _
      (List.mem_append_right _ (List.mem_map_of_mem _ hein))
  · intro h10
    unfold successMessageParts
    rw [if_pos hlen, if_neg (by omega)]
    rfl

/-- Witness for C9 at a concrete result with two errors (itemized
branch). -/
theorem error_itemization_threshold_witness :
    successMessageParts sampleRes
      = ["<p>" ++ sampleRes.message ++ "</p>",
         "<p>Algunos PDFs no pudieron ser procesados:</p><ul>"]
        ++ sampleRes.errors.map errorItem ++ ["</ul>"]
    ∧ ∀ e ∈ sampleRes.errors, errorItem e ∈ successMessageParts sampleRes :=
  (error_itemization_threshold sampleRes (by decide)).1 (by decide)

/-- Counterexample to claim C10 as stated: `selectedPdfFiles` is
batch-selection state (the handles the PDF picker stored; its initial value
at script.js line 23 is the empty list), yet at this concrete state, where
the picker has run, the process-again handler leaves it non-empty instead
of restoring it to its initial value. -/
theorem process_again_retains_picked_files_cex :
    (Frontend.processAgainClick sampleClient).selectedPdfFiles ≠ [] := by
  decide

/-- Claim C10 amended: the process-again handlers reset exactly the
enumerated state - Excel/Sheets selection nulled, `pdfFilesData` emptied
(Drive variant: also `selectedFolderId` nulled, progress bar back to 0,
progress message cleared, process-again button hidden), selection
indicators cleared and hidden, results section hidden, step 1 visible - and
modify nothing else; in particular the raw `selectedPdfFiles` list is left
unchanged in both variants. -/
theorem process_again_reset_characterization
    (s : Frontend.ClientState) (d : Drive.ClientState) :
    Frontend.processAgainClick s
      = { s with
          selectedExcelFile := none
          selectedSheetsFileId := none
          pdfFilesData := []
          selectedExcelFileText := ""
          selectedPdfFolderText := ""
          selectedExcelFileHidden := true
          selectedPdfFolderHidden := true
          resultsSectionHidden := true
          step1Hidden := false }
    ∧ (Frontend.processAgainClick s).selectedPdfFiles = s.selectedPdfFiles
    ∧ Drive.processAgainClick d
      = { d with
          selectedExcelFile := none
          selectedSheetsFileId := none
          pdfFilesData := []
          selectedFolderId := none
          selectedExcelFileText := ""
          selectedPdfFolderText := ""
          selectedExcelFileHidden := true
          selectedPdfFolderHidden := true
          resultsSectionHidden := true
          step1Hidden := false
          progressBarWidth := 0
          progressMessageText := ""
          processAgainHidden := true }
    ∧ (Drive.processAgainClick d).selectedPdfFiles = d.selectedPdfFiles :=
  ⟨rfl, rfl, rfl, rfl⟩

/-- Every outcome the Matcher produces for a document is about that
document. -/
theorem matchDocument_document (index : List Backend.IndexRow)
    (d : Backend.Document) :
    (Backend.matchDocument index d).document = d := by
  rcases hid : d.extracted_identifier with _ | id
  · simp [Backend.matchDocument, hid, Backend.MatchOutcome.document]
  · rcases hrow : Backend.lookupRow index id with _ | row
    · simp [Backend.matchDocument, hid, hrow, Backend.MatchOutcome.document]
    · simp [Backend.matchDocument, hid, hrow, Backend.MatchOutcome.document]

/-- Claim C6: the Matcher yields exactly one MatchOutcome per submitted
document, in submission order, and the matched-and-produced documents
together with the error bucket are a permutation of the submitted batch -
no document is dropped and none is duplicated. -/
theorem matcher_partitions_documents (index : List Backend.IndexRow)
    (docs : List Backend.Document) :
    (Backend.matcher index docs).map Backend.MatchOutcome.document = docs
    ∧ (Backend.matchedDocs index docs
        ++ Backend.errorBucket index docs).Perm docs := by
  induction docs with
  | nil => exact ⟨rfl, List.Perm.refl _⟩
  | cons d t ih =>
    rcases ih with ⟨ih1, ih2⟩
    constructor
    · show (Backend.matchDocument index d :: Backend.matcher index t).map
          Backend.MatchOutcome.document = d :: t
      rw [List.map_cons, matchDocument_document, ih1]
    · cases hm : Backend.matchDocument index d with
      | matched doc row =>
        have hd : doc = d := by
          have hdoc := matchDocument_document index d
          rw [hm] at hdoc
          exact hdoc
        rw [hd] at hm
        have e1 : Backend.matchedDocs index (d :: t)
            = d :: Backend.matchedDocs index t := by
          simp [Backend.matchedDocs, Backend.matcher, hm]
        have e2 : Backend.errorBucket index (d :: t)
            = Backend.errorBucket index t := by
          simp [Backend.errorBucket, Backend.matcher, hm]
        rw [e1, e2]
        exact ih2.cons d
      | unmatched doc reason =>
        have hd : doc = d := by
          have hdoc := matchDocument_document index d
          rw [hm] at hdoc
          exact hdoc
        rw [hd] at hm
        have e1 : Backend.matchedDocs index (d :: t)
            = Backend.matchedDocs index t := by
          simp [Backend.matchedDocs, Backend.matcher, hm]
        have e2 : Backend.errorBucket index (d :: t)
            = d :: Backend.errorBucket index t := by
          simp [Backend.errorBucket, Backend.matcher, hm]
        rw [e1, e2]
        exact List.Perm.trans List.perm_middle (ih2.cons d)

/-- An accepted transition never lowers the status rank. -/
theorem forwardStep_rank (a b : Backend.TaskStatus)
    (h : Backend.forwardStep a b = true) : a.rank ≤ b.rank := by
  revert h
  cases a <;> cases b <;> decide

/-- No transition out of (or within) a terminal status is accepted. -/
theorem terminal_no_forward (a b : Backend.TaskStatus)
    (h : a.isTerminal = true) : Backend.forwardStep a b = false := by
  revert h
  cases a <;> cases b <;> decide

/-- One registry update attempt never lowers progress. -/
theorem applyPatch_progress (t : Backend.Task) (p : Backend.TaskPatch) :
    t.progress ≤ (Backend.applyPatch t p).progress := by
  unfold Backend.applyPatch Backend.Task.update
  by_cases h1 : Backend.forwardStep t.status (p.status.getD t.status) = false
  · simp [h1]
  · by_cases h2 : p.progress.getD t.progress < t.progress
    · simp [h1, h2]
    · simp [h1, h2]
      omega

/-- One registry update attempt never lowers the status rank. -/
theorem applyPatch_rank (t : Backend.Task) (p : Backend.TaskPatch) :
    t.status.rank ≤ (Backend.applyPatch t p).status.rank := by
  unfold Backend.applyPatch Backend.Task.update
  by_cases h1 : Backend.forwardStep t.status (p.status.getD t.status) = false
  · simp [h1]
  · by_cases h2 : p.progress.getD t.progress < t.progress
    · simp [h1, h2]
    · simp [h1, h2]
      exact forwardStep_rank _ _ (by simpa using h1)

/-- A terminal task is immutable: every update attempt is rejected and
leaves it unchanged. -/
theorem applyPatch_terminal (t : Backend.Task) (p : Backend.TaskPatch)
    (h : t.status.isTerminal = true) : Backend.applyPatch t p = t := by
  unfold Backend.applyPatch Backend.Task.update
  simp [terminal_no_forward _ _ h]

/-- One registry update attempt moves the status forward or not at all. -/
theorem applyPatch_status_forward (t : Backend.Task) (p : Backend.TaskPatch) :
    (Backend.applyPatch t p).status = t.status
    ∨ Backend.forwardStep t.status (Backend.applyPatch t p).status = true := by
  unfold Backend.applyPatch Backend.Task.update
  by_cases h1 : Backend.forwardStep t.status (p.status.getD t.status) = false
  · left
    simp [h1]
  · by_cases h2 : p.progress.getD t.progress < t.progress
    · left
      simp [h1, h2]
    · right
      simp [h1, h2]

/-- Claim C7: over a task's whole lifetime - any sequence of update
attempts by its worker - the progress the polls observe is non-decreasing,
the status rank never moves backward, each single update keeps the status
or moves it forward along queued to running to completed/failed, and once
the status is terminal the task (hence its final progress value) never
changes again. -/
theorem task_trace_monotone (t : Backend.Task) (ps : List Backend.TaskPatch) :
    t.progress ≤ (Backend.applyPatches t ps).progress
    ∧ t.status.rank ≤ (Backend.applyPatches t ps).status.rank
    ∧ (t.status.isTerminal = true → Backend.applyPatches t ps = t)
    ∧ ∀ p : Backend.TaskPatch,
        (Backend.applyPatch t p).status = t.status
        ∨ Backend.forwardStep t.status (Backend.applyPatch t p).status = true := by
  induction ps generalizing t with
  | nil =>
    exact ⟨Nat.le_refl _, Nat.le_refl _, fun _ => rfl,
      fun p => applyPatch_status_forward t p⟩
  | cons p ps ih =>
    have hstep : Backend.applyPatches t (p :: ps)
        = Backend.applyPatches (Backend.applyPatch t p) ps := rfl
    have h := ih (Backend.applyPatch t p)
    refine ⟨?_, ?_, ?_, fun q => applyPatch_status_forward t q⟩
    · rw [hstep]
      exact Nat.le_trans (applyPatch_progress t p) h.1
    · rw [hstep]
      exact Nat.le_trans (applyPatch_rank t p) h.2.1
    · intro hterm
      rw [hstep, applyPatch_terminal t p hterm]
      exact (ih t).2.2.1 hterm

/-- Witness for C7 at a concrete terminal task and one update attempt: the
completed task is unchanged. -/
theorem task_trace_monotone_witness :
    Backend.applyPatches
        { status := Backend.TaskStatus.completed, progress := 100,
          result := none }
        [{ status := some Backend.TaskStatus.running, progress := some 0,
           result := none }]
      = { status := Backend.TaskStatus.completed, progress := 100,
          result := none } :=
  (task_trace_monotone
    { status := Backend.TaskStatus.completed, progress := 100, result := none }
    [{ status := some Backend.TaskStatus.running, progress := some 0,
       result := none }]).2.2.1 rfl

end BatchPdfMerger
